import Mathlib

/-!
Verification of the AgentHub server's task-dispatch and agent-accounting core
(`agenthub_server/server.py` and `agenthub_server/database.py`), via a shallow
embedding: Python dictionaries / parsed JSON become the `Json` type below,
floats become `ℚ`, optional values become `Option`, and the `try/except`
blocks become `Except`-valued computations.
-/

/-- Parsed JSON values, as produced by `response.json()` / `json.loads`.
Mirrors Python's data model closely enough for the code under study:
objects are association lists (keys unique), numbers are rationals. -/
inductive Json where
  | null : Json
  | bool (b : Bool) : Json
  | num (q : ℚ) : Json
  | str (s : String) : Json
  | arr (elems : List Json) : Json
  | obj (kvs : List (String × Json)) : Json

/-- First-match lookup in an association list (Python `dict` access; keys
produced by `json.loads` are unique, so first-match agrees with dict lookup). -/
def jlookup : List (String × Json) → String → Option Json
  | [], _ => none
  | (k, v) :: rest, key => if k = key then some v else jlookup rest key

/-- Python truthiness for the values of `Json`: `None`, `False`, `0`, `""`,
`[]` and `{}` are falsy, everything else truthy. -/
def jsonTruthy : Json → Bool
  | .null => false
  | .bool b => b
  | .num q => decide (q ≠ 0)
  | .str s => decide (s ≠ "")
  | .arr elems => !elems.isEmpty
  | .obj kvs => !kvs.isEmpty

/-- Python `x.get(key, default)`: raises `AttributeError` (modelled as
`Except.error ()`) when `x` is not a dict, otherwise returns the stored value
or the default. -/
def objGetD (j : Json) (key : String) (dflt : Json) : Except Unit Json :=
  match j with
  | .obj kvs => .ok ((jlookup kvs key).getD dflt)
  | _ => .error ()

/-- Python `j == s` for a string literal `s`: true exactly when `j` is that
string (comparison with a non-string value is `False`, never an error). -/
def isStr (j : Json) (s : String) : Bool :=
  match j with
  | .str t => t = s
  | _ => false

/-- Numeric coercion performed by Python arithmetic (`price * x`): numbers are
themselves, booleans are 0/1, anything else raises `TypeError` (modelled as
`Except.error ()`). -/
def asNum : Json → Except Unit ℚ
  | .num q => .ok q
  | .bool b => .ok (if b then 1 else 0)
  | _ => .error ()

/-- Body of `AgentHubServer.calculate_task_cost` (server.py), before the
enclosing `try/except`: reads `metadata.get("pricing")`, returns 0 for a
missing/falsy pricing model, then dispatches on `pricing.get("type",
"per_request")` with `price = pricing.get("price", 0.0)`:
`per_request` → `price`, `per_minute` → `price * (execution_time / 60.0)`,
`per_token` → `price * 100` (the placeholder), any other type → `price`.
Errors raised while interpreting the fields surface as `Except.error ()`. -/
def calcCostE (metadata : Json) (execution_time : ℚ) : Except Unit Json :=
  match objGetD metadata "pricing" .null with
  | .error e => .error e
  | .ok pricing =>
    if !jsonTruthy pricing then .ok (.num 0)
    else
      match pricing with
      | .obj kvs =>
        let pricing_type := (jlookup kvs "type").getD (.str "per_request")
        let price := (jlookup kvs "price").getD (.num 0)
        if isStr pricing_type "per_request" then .ok price
        else if isStr pricing_type "per_minute" then
          match asNum price with
          | .ok p => .ok (.num (p * (execution_time / 60)))
          | .error e => .error e
        else if isStr pricing_type "per_token" then
          match asNum price with
          | .ok p => .ok (.num (p * 100))
          | .error e => .error e
        else .ok price
      | _ => .error ()

/-- `AgentHubServer.calculate_task_cost` (server.py): the computation above
wrapped in the `try/except Exception` that logs and returns `0.0`. -/
def calculate_task_cost (metadata : Json) (execution_time : ℚ) : Json :=
  match calcCostE metadata execution_time with
  | .ok v => v
  | .error _ => .num 0

/-- Agent metadata holding a pricing model of the given type and price,
the shape produced by registering an agent with a `PricingModel`. -/
def mkPricingMeta (ptype : String) (price : ℚ) : Json :=
  .obj [("pricing", .obj [("type", .str ptype), ("price", .num price)])]

example : calculate_task_cost (mkPricingMeta "fixed" 3) 120 = .num 3 := rfl
example : calculate_task_cost (mkPricingMeta "per_minute" 60) 30 = .num 30 := by
  simp [calculate_task_cost, calcCostE, mkPricingMeta, objGetD, jlookup,
    jsonTruthy, isStr, asNum]
  norm_num
example : calculate_task_cost (.obj []) 5 = .num 0 := rfl

/-- Database backend selector: `DatabaseManager.db_type` is `"sqlite"` or
`"postgresql"` depending on the connection string. -/
inductive DbKind where
  | sqlite : DbKind
  | postgresql : DbKind

/-- Mutable columns of a row of the `tasks` table that
`DatabaseManager.update_task` touches (`status`, `result`, `error`,
`execution_time`, `cost`, `completed_at`).  `result` holds the parsed JSON
payload (stored serialized, parsed back by `get_task`); `cost` holds whatever
value the caller passed (a `Json` scalar, since SQLite is dynamically typed);
timestamps are instants on a rational clock. -/
structure TaskRow where
  status : String
  result : Option Json
  error : Option String
  execution_time : Option ℚ
  cost : Option Json
  completed_at : Option ℚ

/-- A freshly created row of the `tasks` table (`DatabaseManager.create_task`):
status defaults to `'pending'`, every other mutable column is NULL. -/
def pendingRow : TaskRow :=
  { status := "pending", result := none, error := none,
    execution_time := none, cost := none, completed_at := none }

/-- `DatabaseManager.update_task` (database.py): one UPDATE that overwrites
`status`, `result`, `error`, `execution_time` and `cost` with the arguments of
this call.  `result` is stored as `json.dumps(result) if result else None`, so
a falsy payload (e.g. `{}`) is stored as NULL.  `completed_at` is set to `now`
when the new status is `'completed'` or `'failed'`; otherwise the SQLite
branch binds `None` (overwriting any stored timestamp) while the PostgreSQL
branch's `CASE ... ELSE completed_at END` keeps the stored value. -/
def update_task (db : DbKind) (row : TaskRow) (status : String)
    (result : Option Json) (error : Option String)
    (execution_time : Option ℚ) (cost : Option Json) (now : ℚ) : TaskRow :=
  { status := status
    result := match result with
      | some v => if jsonTruthy v then some v else none
      | none => none
    error := error
    execution_time := execution_time
    cost := cost
    completed_at :=
      match db with
      | .sqlite =>
        if status = "completed" ∨ status = "failed" then some now else none
      | .postgresql =>
        if status = "completed" ∨ status = "failed" then some now
        else row.completed_at }

/-- `TaskRequest` (models.py): the client-side task submission payload, with
the pydantic defaults. -/
structure TaskRequest where
  agent_id : String := ""
  endpoint : String := ""
  parameters : Json := .obj []
  callback_url : Option String := none
  timeout : Option Int := none
  priority : Int := 0

/-- Timeout bound handed to the HTTP client for a task's outbound call:
`AgentHubServer.execute_task` constructs `httpx.AsyncClient(timeout=30.0)`
unconditionally, never consulting `task_request.timeout`. -/
def client_timeout (task_request : TaskRequest) : ℚ := 30

/-- Outcome of the outbound agent invocation in
`AgentHubServer.execute_task`: either the parsed JSON body of a 2xx response,
or the human-readable message of the exception raised on the way there
(no endpoint available, connection error, non-2xx via `raise_for_status`,
body not parseable as JSON, ...). -/
def InvocationOutcome := Except String Json

/-- Body of `AgentHubServer.execute_task` (server.py) as a state transformer
on the task's row: first `update_task(task_id, "running")`, then, when the
invocation yields a response `v`, `update_task(..., "completed", result=v,
execution_time=et, cost=calculate_task_cost(agent_info, et))`; when it raises
with message `e`, `update_task(..., "failed", error=str(e),
execution_time=et)`.  `metadata` is `agent_info["metadata"]`; `et` is the
measured wall-clock duration. -/
def execute_task (db : DbKind) (row : TaskRow) (metadata : Json)
    (outcome : Except String Json) (et now : ℚ) : TaskRow :=
  let running := update_task db row "running" none none none none now
  match outcome with
  | .ok v =>
    update_task db running "completed" (some v) none (some et)
      (some (calculate_task_cost metadata et)) now
  | .error e =>
    update_task db running "failed" none (some e) (some et) none now

/-- One step of `DatabaseManager.update_agent_stats` (database.py) on the
stats columns `(total_tasks, success_rate, average_response_time)` of an
agents-table row:
`new_total = total_tasks + 1`,
`new_success_rate = (success_rate * total_tasks + (1 if success else 0)) / new_total`,
`new_avg_response = (average_response_time * total_tasks + execution_time) / new_total`
(identical in the SQLite read-modify-write and the single PostgreSQL UPDATE). -/
def statsStep (st : ℕ × ℚ × ℚ) (outcome : Bool × ℚ) : ℕ × ℚ × ℚ :=
  (st.1 + 1,
   (st.2.1 * st.1 + (if outcome.1 then 1 else 0)) / (st.1 + 1),
   (st.2.2 * st.1 + outcome.2) / (st.1 + 1))

/-- Stats columns of a freshly registered agent, from the agents-table
defaults: `total_tasks = 0`, `success_rate = 1.0`,
`average_response_time = 0.0`. -/
def registrationDefaults : ℕ × ℚ × ℚ := (0, 1, 0)

/-- Stats columns after a sequence of `update_agent_stats` calls (one per
recorded outcome `(success, execution_time)`), starting from the
registration defaults. -/
def runStats (outcomes : List (Bool × ℚ)) : ℕ × ℚ × ℚ :=
  outcomes.foldl statsStep registrationDefaults

/-- Number of successful outcomes in a recorded sequence. -/
def countTrue : List (Bool × ℚ) → ℕ
  | [] => 0
  | p :: rest => (if p.1 then 1 else 0) + countTrue rest

/-- Sum of the recorded execution times. -/
def timeSum : List (Bool × ℚ) → ℚ
  | [] => 0
  | p :: rest => p.2 + timeSum rest

/-- A row of the `agents` table, reduced to what the task-creation routes
consult: `get_agent` only feeds agent existence (and, downstream, its
`metadata`) into `create_task` / `create_batch_tasks`. -/
structure AgentRow where
  id : String
  metadata : Json

/-- Server-side store visible to the task-creation routes: the agents
directory, the tasks table (in insertion order) and a supply of fresh task
ids (standing in for `uuid.uuid4()`). -/
structure ServerState where
  agents : List (String × AgentRow)
  tasks : List (ℕ × String × String × Json)
  nextId : ℕ

/-- First-match lookup in the agents directory. -/
def jidLookup : List (String × AgentRow) → String → Option AgentRow
  | [], _ => none
  | (k, v) :: rest, key => if k = key then some v else jidLookup rest key

/-- `DatabaseManager.get_agent`: SELECT by primary key. -/
def get_agent (st : ServerState) (agent_id : String) : Option AgentRow :=
  jidLookup st.agents agent_id

/-- `DatabaseManager.create_task`: INSERT a new row (fresh id, the request's
agent id, endpoint and parameters, status defaulting to `'pending'`),
returning the generated task id. -/
def db_create_task (st : ServerState) (agent_id endpoint : String)
    (parameters : Json) : ℕ × ServerState :=
  (st.nextId,
   { st with
       tasks := st.tasks ++ [(st.nextId, agent_id, endpoint, parameters)]
       nextId := st.nextId + 1 })

/-- Synchronous errors of the task-creation route (`HTTPException`s). -/
inductive HubError where
  | agentNotFound : HubError

/-- Synchronous part of the `POST /tasks` handler `create_task` (server.py):
look the agent up; if missing, raise 404 "Agent not found" before any task is
created; otherwise create the task row and answer with its id and status
`"pending"` (the invocation itself runs out-of-band via
`background_tasks.add_task`). The state component of the returned pair is the
store after the request. -/
def create_task_route (st : ServerState) (req : TaskRequest) :
    Except HubError (ℕ × String) × ServerState :=
  match get_agent st req.agent_id with
  | none => (.error .agentNotFound, st)
  | some _ =>
    let created := db_create_task st req.agent_id req.endpoint req.parameters
    (.ok (created.1, "pending"), created.2)

/-- One entry of the per-item result list of the `POST /tasks/batch` handler:
either `{"task_id": ..., "status": "pending", "agent_id": ...}` or
`{"error": ..., "agent_id": ...}`. -/
inductive BatchItem where
  | ok (task_id : ℕ) (status : String) (agent_id : String) : BatchItem
  | err (message : String) (agent_id : String) : BatchItem

/-- The `POST /tasks/batch` handler `create_batch_tasks` (server.py): iterate
over the submitted requests; for each, a missing agent appends an inline
error entry (`"Agent {id} not found"` with the original agent id) and
`continue`s, while a found agent creates a task row and appends a success
entry; the loop itself never aborts. -/
def create_batch_tasks :
    ServerState → List TaskRequest → List BatchItem × ServerState
  | st, [] => ([], st)
  | st, req :: rest =>
    match get_agent st req.agent_id with
    | none =>
      let tail := create_batch_tasks st rest
      (.err ("Agent " ++ req.agent_id ++ " not found") req.agent_id :: tail.1,
       tail.2)
    | some _ =>
      let created := db_create_task st req.agent_id req.endpoint req.parameters
      let tail := create_batch_tasks created.2 rest
      (.ok created.1 "pending" req.agent_id :: tail.1, tail.2)

theorem countTrue_le_length (l : List (Bool × ℚ)) : countTrue l ≤ l.length := by
  induction l with
  | nil => simp [countTrue]
  | cons hd tl ih =>
    rcases hd with ⟨b, x⟩
    cases b <;> simp [countTrue] <;> omega

theorem statsFold_inv (l : List (Bool × ℚ)) :
    ∀ (t : ℕ) (sr art : ℚ),
      (List.foldl statsStep (t, sr, art) l).1 = t + l.length ∧
      (List.foldl statsStep (t, sr, art) l).2.1 * ((t : ℚ) + l.length) =
        sr * t + (countTrue l : ℚ) ∧
      (List.foldl statsStep (t, sr, art) l).2.2 * ((t : ℚ) + l.length) =
        art * t + timeSum l := by
  induction l with
  | nil =>
    intro t sr art
    simp [countTrue, timeSum]
  | cons hd tl ih =>
    intro t sr art
    obtain ⟨b, x⟩ := hd
    have hne : ((t : ℚ) + 1) ≠ 0 := by positivity
    obtain ⟨h1, h2, h3⟩ :=
      ih (t + 1) ((sr * t + (if b then 1 else 0)) / (t + 1))
        ((art * t + x) / (t + 1))
    have hstep : statsStep (t, sr, art) (b, x) =
        (t + 1, (sr * t + (if b then 1 else 0)) / (t + 1),
         (art * t + x) / (t + 1)) := rfl
    have hcount : countTrue ((b, x) :: tl) =
        (if b then 1 else 0) + countTrue tl := rfl
    have hι : (((if b then 1 else 0) : ℕ) : ℚ) = (if b then 1 else 0) := by
      cases b <;> simp
    rw [List.foldl_cons, hstep]
    push_cast at h2 h3
    rw [div_mul_cancel₀ _ hne] at h2 h3
    refine ⟨?_, ?_, ?_⟩
    · rw [h1, List.length_cons]; omega
    · rw [hcount, List.length_cons]
      push_cast [hι]
      linear_combination h2
    · rw [List.length_cons]
      have htime : timeSum ((b, x) :: tl) = x + timeSum tl := rfl
      rw [htime]
      push_cast
      linear_combination h3

/-- C1: starting from the registration defaults (total_tasks = 0,
success_rate = 1.0, average_response_time = 0.0), after any nonempty
sequence of `update_agent_stats` steps — each computed as
`new_success_rate = (success_rate * total_tasks + (1 if success else 0)) / (total_tasks + 1)`
and `new_avg = (average_response_time * total_tasks + execution_time) / (total_tasks + 1)` —
`total_tasks` counts the outcomes, `success_rate` equals
(number of successes)/N and lies in [0, 1], and `average_response_time`
equals the arithmetic mean of the recorded execution times. -/
theorem update_agent_stats_running_mean (outcomes : List (Bool × ℚ))
    (h : outcomes ≠ []) :
    (runStats outcomes).1 = outcomes.length ∧
    (runStats outcomes).2.1 =
      (countTrue outcomes : ℚ) / (outcomes.length : ℚ) ∧
    0 ≤ (runStats outcomes).2.1 ∧ (runStats outcomes).2.1 ≤ 1 ∧
    (runStats outcomes).2.2 = timeSum outcomes / (outcomes.length : ℚ) := by
  have hlen : 0 < outcomes.length := List.length_pos.mpr h
  have hlenQ : (0 : ℚ) < (outcomes.length : ℚ) := by exact_mod_cast hlen
  have hne : ((outcomes.length : ℚ)) ≠ 0 := ne_of_gt hlenQ
  obtain ⟨h1, h2, h3⟩ := statsFold_inv outcomes 0 1 0
  simp only [Nat.cast_zero, zero_add, mul_zero, one_mul, zero_mul,
    Nat.zero_add] at h1 h2 h3
  have hrun : runStats outcomes = List.foldl statsStep (0, 1, 0) outcomes := rfl
  rw [hrun]
  have hsr : (List.foldl statsStep (0, 1, 0) outcomes).2.1 =
      (countTrue outcomes : ℚ) / (outcomes.length : ℚ) :=
    (eq_div_iff hne).mpr h2
  refine ⟨h1, hsr, ?_, ?_, (eq_div_iff hne).mpr h3⟩
  · rw [hsr]
    exact div_nonneg (Nat.cast_nonneg _) (le_of_lt hlenQ)
  · rw [hsr]
    exact (div_le_one hlenQ).mpr (by exact_mod_cast countTrue_le_length outcomes)

/-- Witness for C1: two recorded outcomes, one success in 2 s and one
failure in 4 s. -/
theorem update_agent_stats_running_mean_witness :
    ([(true, (2 : ℚ)), (false, 4)] ≠ ([] : List (Bool × ℚ))) ∧
    ((runStats [(true, (2 : ℚ)), (false, 4)]).1 =
        [(true, (2 : ℚ)), (false, 4)].length ∧
     (runStats [(true, (2 : ℚ)), (false, 4)]).2.1 =
        (countTrue [(true, (2 : ℚ)), (false, 4)] : ℚ) /
          ([(true, (2 : ℚ)), (false, 4)].length : ℚ) ∧
     0 ≤ (runStats [(true, (2 : ℚ)), (false, 4)]).2.1 ∧
     (runStats [(true, (2 : ℚ)), (false, 4)]).2.1 ≤ 1 ∧
     (runStats [(true, (2 : ℚ)), (false, 4)]).2.2 =
        timeSum [(true, (2 : ℚ)), (false, 4)] /
          ([(true, (2 : ℚ)), (false, 4)].length : ℚ)) :=
  ⟨List.cons_ne_nil _ _,
   update_agent_stats_running_mean [(true, (2 : ℚ)), (false, 4)]
     (List.cons_ne_nil _ _)⟩

/-- C3: for every agent pricing model and every execution time ≥ 0,
`calculate_task_cost` returns `price` for pricing type `'fixed'` (via the
final `else`) and `'per_request'`, returns `price * (execution_time / 60)`
for `'per_minute'`, returns 0 when the metadata carries no pricing model,
and any internal error in interpreting the pricing fields is caught and
yields cost 0 (the function is total, so it never raises). -/
theorem calculate_task_cost_spec (et p : ℚ) (het : 0 ≤ et) :
    (∀ mk pk, jlookup mk "pricing" = some (.obj pk) →
       jlookup pk "price" = some (.num p) →
       ((jlookup pk "type" = some (.str "fixed") →
           calculate_task_cost (.obj mk) et = .num p) ∧
        (jlookup pk "type" = some (.str "per_request") →
           calculate_task_cost (.obj mk) et = .num p) ∧
        (jlookup pk "type" = some (.str "per_minute") →
           calculate_task_cost (.obj mk) et = .num (p * (et / 60))))) ∧
    (∀ mk, jlookup mk "pricing" = none →
       calculate_task_cost (.obj mk) et = .num 0) ∧
    (∀ m, calcCostE m et = .error () →
       calculate_task_cost m et = .num 0) := by
  refine ⟨?_, ?_, ?_⟩
  · intro mk pk hpr hprice
    cases pk with
    | nil => simp [jlookup] at hprice
    | cons hd tlp =>
      refine ⟨?_, ?_, ?_⟩ <;> intro htype <;>
        simp [calculate_task_cost, calcCostE, objGetD, hpr, hprice, htype,
          jsonTruthy, isStr, asNum]
  · intro mk hpr
    simp [calculate_task_cost, calcCostE, objGetD, hpr, jsonTruthy]
  · intro m hm
    simp [calculate_task_cost, hm]

/-- Witness for C3 at execution time 0 and price 3. -/
theorem calculate_task_cost_spec_witness :
    (0 : ℚ) ≤ 0 ∧
    ((∀ mk pk, jlookup mk "pricing" = some (.obj pk) →
        jlookup pk "price" = some (.num 3) →
        ((jlookup pk "type" = some (.str "fixed") →
            calculate_task_cost (.obj mk) 0 = .num 3) ∧
         (jlookup pk "type" = some (.str "per_request") →
            calculate_task_cost (.obj mk) 0 = .num 3) ∧
         (jlookup pk "type" = some (.str "per_minute") →
            calculate_task_cost (.obj mk) 0 = .num (3 * ((0 : ℚ) / 60))))) ∧
     (∀ mk, jlookup mk "pricing" = none →
        calculate_task_cost (.obj mk) 0 = .num 0) ∧
     (∀ m, calcCostE m 0 = .error () →
        calculate_task_cost m 0 = .num 0)) :=
  ⟨le_refl 0, calculate_task_cost_spec 0 3 (le_refl 0)⟩

/-- C4: the code does not fail closed for `per_token` pricing — with pricing
`{type: "per_token", price: 0.01}` and no token count anywhere in sight,
`calculate_task_cost` fabricates `price * 100 = 1.0` (the source's
placeholder multiplier) instead of producing an error. -/
theorem calculate_task_cost_per_token_placeholder :
    calculate_task_cost (mkPricingMeta "per_token" (1 / 100)) 7 =
      .num ((1 / 100 : ℚ) * 100) ∧ ((1 / 100 : ℚ) * 100 = 1) := by
  constructor
  · simp [calculate_task_cost, calcCostE, mkPricingMeta, objGetD, jlookup,
      jsonTruthy, isStr, asNum]
  · norm_num

/-- A task request that explicitly asks for a 5-unit timeout. -/
def timeoutFiveRequest : TaskRequest :=
  { agent_id := "agent-a"
    endpoint := "/run"
    parameters := .obj []
    callback_url := none
    timeout := some 5
    priority := 0 }

/-- C8: the HTTP call of `execute_task` is bounded by the fixed 30-unit
client timeout even when the task requests `timeout = 5`; the task-level
value does not override the default. -/
theorem client_timeout_ignores_task_timeout :
    client_timeout timeoutFiveRequest = 30 ∧ (30 : ℚ) ≠ 5 := by
  refine ⟨rfl, ?_⟩
  norm_num

/-- A task row that has already completed, carrying a completion
timestamp of 5. -/
def completedAtFiveRow : TaskRow :=
  { status := "completed", result := none, error := none,
    execution_time := some 1, cost := some (.num 0), completed_at := some 5 }

/-- C7 counterexample: on the SQLite backend (the default), updating a task
that carries a completion timestamp to status 'running' resets
`completed_at` to NULL instead of leaving it untouched. -/
theorem update_task_running_clears_completed_at :
    completedAtFiveRow.completed_at = some 5 ∧
    (update_task .sqlite completedAtFiveRow "running"
        none none none none 9).completed_at = none :=
  ⟨rfl, rfl⟩

/-- C7 (amended): `update_task` stamps `completed_at := now` exactly when the
new status is 'completed' or 'failed'; for any other status the PostgreSQL
branch leaves the stored completion timestamp untouched, while the SQLite
branch overwrites it with NULL. -/
theorem update_task_completed_at_stamp (db : DbKind) (row : TaskRow)
    (status : String) (result : Option Json) (error : Option String)
    (et : Option ℚ) (cost : Option Json) (now : ℚ) :
    ((status = "completed" ∨ status = "failed") →
      (update_task db row status result error et cost now).completed_at =
        some now) ∧
    (status ≠ "completed" → status ≠ "failed" →
      (update_task .postgresql row status result error et cost
          now).completed_at = row.completed_at ∧
      (update_task .sqlite row status result error et cost
          now).completed_at = none) := by
  constructor
  · intro h
    cases db <;> simp [update_task, h]
  · intro h1 h2
    simp [update_task, h1, h2]

/-- Witness for C7: a 'running' update preserves the stored timestamp on
PostgreSQL, nulls it on SQLite; a 'completed' update stamps the clock. -/
theorem update_task_completed_at_stamp_witness :
    ((update_task .postgresql completedAtFiveRow "running"
        none none none none 9).completed_at = completedAtFiveRow.completed_at ∧
     (update_task .sqlite completedAtFiveRow "running"
        none none none none 9).completed_at = none) ∧
    (update_task .sqlite completedAtFiveRow "completed"
        none none none none 9).completed_at = some 9 :=
  ⟨(update_task_completed_at_stamp .sqlite completedAtFiveRow "running"
      none none none none 9).2 (by decide) (by decide),
   (update_task_completed_at_stamp .sqlite completedAtFiveRow "completed"
      none none none none 9).1 (Or.inl rfl)⟩

/-- C10: every `update_task` call overwrites the task's four mutable payload
fields — result, error, execution_time, cost — with exactly the arguments of
that call, regardless of what the row held before: an omitted argument stores
NULL, and a passed-but-falsy result (such as the empty object) also stores
NULL; in particular a bare 'running' transition resets all four to NULL. -/
theorem update_task_overwrites_mutable_fields (db : DbKind) (row : TaskRow)
    (status : String) (result : Option Json) (error : Option String)
    (et : Option ℚ) (cost : Option Json) (now : ℚ) :
    (update_task db row status result error et cost now).status = status ∧
    (update_task db row status result error et cost now).result =
      (match result with
       | some v => if jsonTruthy v then some v else none
       | none => none) ∧
    (update_task db row status result error et cost now).error = error ∧
    (update_task db row status result error et cost now).execution_time = et ∧
    (update_task db row status result error et cost now).cost = cost ∧
    (update_task db row "completed" (some (Json.obj [])) none et cost
        now).result = none ∧
    (update_task db row "running" none none none none now).result = none ∧
    (update_task db row "running" none none none none now).error = none ∧
    (update_task db row "running" none none none none
        now).execution_time = none ∧
    (update_task db row "running" none none none none now).cost = none :=
  ⟨rfl, rfl, rfl, rfl, rfl, rfl, rfl, rfl, rfl, rfl⟩

/-- Registration invariant on stored agent metadata: if it carries a pricing
object with a `price` entry, that entry is a number ≥ 0 (the pydantic
`PricingModel` validates `price >= 0` on registration).  All other shapes are
unconstrained — `calculate_task_cost` degrades them to 0 anyway. -/
def pricingWF : Json → Bool
  | .obj kvs =>
    match jlookup kvs "pricing" with
    | some (.obj pkvs) =>
      match jlookup pkvs "price" with
      | some (.num q) => decide (0 ≤ q)
      | some _ => false
      | none => true
    | some _ => true
    | none => true
  | _ => true

theorem calculate_task_cost_nonneg (m : Json) (et : ℚ)
    (hwf : pricingWF m = true) (het : 0 ≤ et) :
    ∃ c, calculate_task_cost m et = .num c ∧ 0 ≤ c := by
  cases m with
  | obj kvs =>
    cases hpr : jlookup kvs "pricing" with
    | none =>
      refine ⟨0, ?_, le_refl 0⟩
      simp [calculate_task_cost, calcCostE, objGetD, hpr, jsonTruthy]
    | some p =>
      cases p with
      | obj pkvs =>
        by_cases hemp : pkvs.isEmpty = true
        · refine ⟨0, ?_, le_refl 0⟩
          simp [calculate_task_cost, calcCostE, objGetD, hpr, jsonTruthy, hemp]
        · have hemp' : pkvs.isEmpty = false := by
            revert hemp; cases pkvs.isEmpty <;> simp
          have hE : calcCostE (.obj kvs) et =
              (if isStr ((jlookup pkvs "type").getD (.str "per_request"))
                    "per_request" then
                 .ok ((jlookup pkvs "price").getD (.num 0))
               else if isStr ((jlookup pkvs "type").getD
                    (.str "per_request")) "per_minute" then
                 match asNum ((jlookup pkvs "price").getD (.num 0)) with
                 | .ok p => .ok (.num (p * (et / 60)))
                 | .error e => .error e
               else if isStr ((jlookup pkvs "type").getD
                    (.str "per_request")) "per_token" then
                 match asNum ((jlookup pkvs "price").getD (.num 0)) with
                 | .ok p => .ok (.num (p * 100))
                 | .error e => .error e
               else .ok ((jlookup pkvs "price").getD (.num 0))) := by
            simp [calcCostE, objGetD, hpr, jsonTruthy, hemp']
          obtain ⟨q, hq0, hqv⟩ :
              ∃ q, 0 ≤ q ∧ (jlookup pkvs "price").getD (.num 0) = .num q := by
            cases hprice : jlookup pkvs "price" with
            | none => exact ⟨0, le_refl 0, by simp [hprice]⟩
            | some pv =>
              cases pv with
              | num q =>
                refine ⟨q, ?_, by simp [hprice]⟩
                have hw := hwf
                simp [pricingWF, hpr, hprice] at hw
                exact hw
              | null => simp [pricingWF, hpr, hprice] at hwf
              | bool b => simp [pricingWF, hpr, hprice] at hwf
              | str s => simp [pricingWF, hpr, hprice] at hwf
              | arr es => simp [pricingWF, hpr, hprice] at hwf
              | obj os => simp [pricingWF, hpr, hprice] at hwf
          rw [hqv] at hE
          simp only [asNum] at hE
          by_cases h1 : isStr ((jlookup pkvs "type").getD
              (.str "per_request")) "per_request" = true
          · exact ⟨q, by simp [calculate_task_cost, hE, h1], hq0⟩
          · by_cases h2 : isStr ((jlookup pkvs "type").getD
                (.str "per_request")) "per_minute" = true
            · exact ⟨q * (et / 60),
                by simp [calculate_task_cost, hE, h1, h2],
                mul_nonneg hq0 (div_nonneg het (by norm_num))⟩
            · by_cases h3 : isStr ((jlookup pkvs "type").getD
                  (.str "per_request")) "per_token" = true
              · exact ⟨q * 100, by simp [calculate_task_cost, hE, h1, h2, h3],
                  mul_nonneg hq0 (by norm_num)⟩
              · exact ⟨q, by simp [calculate_task_cost, hE, h1, h2, h3], hq0⟩
      | null =>
        refine ⟨0, ?_, le_refl 0⟩
        simp [calculate_task_cost, calcCostE, objGetD, hpr, jsonTruthy]
      | bool b =>
        refine ⟨0, ?_, le_refl 0⟩
        cases b <;>
          simp [calculate_task_cost, calcCostE, objGetD, hpr, jsonTruthy]
      | num q =>
        refine ⟨0, ?_, le_refl 0⟩
        by_cases hq : q = 0 <;>
          simp [calculate_task_cost, calcCostE, objGetD, hpr, jsonTruthy, hq]
      | str s =>
        refine ⟨0, ?_, le_refl 0⟩
        by_cases hs : s = "" <;>
          simp [calculate_task_cost, calcCostE, objGetD, hpr, jsonTruthy, hs]
      | arr elems =>
        refine ⟨0, ?_, le_refl 0⟩
        cases elems <;>
          simp [calculate_task_cost, calcCostE, objGetD, hpr, jsonTruthy]
  | null => exact ⟨0, rfl, le_refl 0⟩
  | bool b => exact ⟨0, rfl, le_refl 0⟩
  | num q => exact ⟨0, rfl, le_refl 0⟩
  | str s => exact ⟨0, rfl, le_refl 0⟩
  | arr elems => exact ⟨0, rfl, le_refl 0⟩

/-- C2 (amended): when the background execution of `execute_task` terminates
with status 'completed', the stored task has a NULL error, a non-null
execution_time (the measured duration, ≥ 0 by hypothesis), a non-null cost
that is a number ≥ 0 (given the registration invariant on the agent's
pricing), and its result is the agent's parsed response whenever that
response is truthy — a falsy response (such as `{}`) is stored as NULL.
When it terminates with status 'failed', the stored task has a non-null
error, a NULL result and a NULL cost. -/
theorem execute_task_terminal_invariant (db : DbKind) (row : TaskRow)
    (metadata : Json) (outcome : Except String Json) (et now : ℚ)
    (hwf : pricingWF metadata = true) (het : 0 ≤ et) :
    (∀ v, outcome = .ok v →
      (execute_task db row metadata outcome et now).status = "completed" ∧
      (execute_task db row metadata outcome et now).error = none ∧
      (execute_task db row metadata outcome et now).execution_time =
        some et ∧
      (∃ c, (execute_task db row metadata outcome et now).cost =
        some (.num c) ∧ 0 ≤ c) ∧
      (execute_task db row metadata outcome et now).result =
        (if jsonTruthy v then some v else none)) ∧
    (∀ e, outcome = .error e →
      (execute_task db row metadata outcome et now).status = "failed" ∧
      (execute_task db row metadata outcome et now).result = none ∧
      (execute_task db row metadata outcome et now).cost = none ∧
      (execute_task db row metadata outcome et now).error = some e ∧
      (execute_task db row metadata outcome et now).execution_time =
        some et) := by
  obtain ⟨c, hc, hc0⟩ := calculate_task_cost_nonneg metadata et hwf het
  constructor
  · intro v hv
    subst hv
    refine ⟨rfl, rfl, rfl, ⟨c, ?_, hc0⟩, rfl⟩
    simp [execute_task, update_task, hc]
  · intro e he
    subst he
    exact ⟨rfl, rfl, rfl, rfl, rfl⟩

/-- C2 counterexample: an agent that answers a completed invocation with the
falsy JSON body `{}` yields a task in status 'completed' whose stored result
is NULL, refuting "completed tasks always have a non-null result". -/
theorem execute_task_completed_with_null_result :
    (execute_task .sqlite pendingRow (.obj []) (.ok (.obj []))
        1 100).status = "completed" ∧
    (execute_task .sqlite pendingRow (.obj []) (.ok (.obj []))
        1 100).result = none :=
  ⟨rfl, rfl⟩

/-- Witness for C2: a truthy response on a metadata without pricing,
measured at 1 time unit. -/
theorem execute_task_terminal_invariant_witness :
    pricingWF (Json.obj []) = true ∧ (0 : ℚ) ≤ 1 ∧
    ((∀ v, (Except.ok (Json.obj [("answer", Json.num 42)]) :
          Except String Json) = .ok v →
      (execute_task .sqlite pendingRow (.obj [])
        (.ok (.obj [("answer", .num 42)])) 1 100).status = "completed" ∧
      (execute_task .sqlite pendingRow (.obj [])
        (.ok (.obj [("answer", .num 42)])) 1 100).error = none ∧
      (execute_task .sqlite pendingRow (.obj [])
        (.ok (.obj [("answer", .num 42)])) 1 100).execution_time = some 1 ∧
      (∃ c, (execute_task .sqlite pendingRow (.obj [])
        (.ok (.obj [("answer", .num 42)])) 1 100).cost =
          some (.num c) ∧ 0 ≤ c) ∧
      (execute_task .sqlite pendingRow (.obj [])
        (.ok (.obj [("answer", .num 42)])) 1 100).result =
        (if jsonTruthy v then some v else none)) ∧
    (∀ e, (Except.ok (Json.obj [("answer", Json.num 42)]) :
          Except String Json) = .error e →
      (execute_task .sqlite pendingRow (.obj [])
        (.ok (.obj [("answer", .num 42)])) 1 100).status = "failed" ∧
      (execute_task .sqlite pendingRow (.obj [])
        (.ok (.obj [("answer", .num 42)])) 1 100).result = none ∧
      (execute_task .sqlite pendingRow (.obj [])
        (.ok (.obj [("answer", .num 42)])) 1 100).cost = none ∧
      (execute_task .sqlite pendingRow (.obj [])
        (.ok (.obj [("answer", .num 42)])) 1 100).error = some e ∧
      (execute_task .sqlite pendingRow (.obj [])
        (.ok (.obj [("answer", .num 42)])) 1 100).execution_time =
        some 1)) :=
  ⟨rfl, zero_le_one,
   execute_task_terminal_invariant .sqlite pendingRow (.obj [])
     (.ok (.obj [("answer", .num 42)])) 1 100 rfl zero_le_one⟩

/-- C5: a task-creation request naming an agent id with no registered agent
fails synchronously with AgentNotFound (the 404 of `create_task`) and leaves
the store — in particular the task table — exactly as it was: no task record
is ever created. -/
theorem create_task_missing_agent (st : ServerState) (req : TaskRequest)
    (h : get_agent st req.agent_id = none) :
    (create_task_route st req).1 = .error .agentNotFound ∧
    (create_task_route st req).2 = st := by
  simp [create_task_route, h]

/-- The empty server store. -/
def emptyState : ServerState :=
  { agents := [], tasks := [], nextId := 0 }

/-- A task request targeting the nonexistent agent id "missing-1". -/
def missingReq : TaskRequest := { agent_id := "missing-1" }

/-- Witness for C5: dispatching to the nonexistent agent id "missing-1" on
an empty store. -/
theorem create_task_missing_agent_witness :
    get_agent emptyState missingReq.agent_id = none ∧
    ((create_task_route emptyState missingReq).1 = .error .agentNotFound ∧
     (create_task_route emptyState missingReq).2 = emptyState) :=
  ⟨rfl, create_task_missing_agent emptyState missingReq rfl⟩

theorem get_agent_db_create_task (st : ServerState)
    (agent_id endpoint : String) (parameters : Json) (a : String) :
    get_agent (db_create_task st agent_id endpoint parameters).2 a =
      get_agent st a := rfl

/-- C6: batch creation never fails wholesale — it returns one entry per
submitted request, in input order; an item whose agent id is unknown yields
an inline error entry carrying the original agent id, while an item whose
agent exists yields a task id with status "pending", independently of what
happens to its siblings (each entry is determined by its own request and the
agents directory alone). -/
theorem create_batch_tasks_per_item (st : ServerState)
    (reqs : List TaskRequest) :
    (create_batch_tasks st reqs).1.length = reqs.length ∧
    (∀ i r, reqs.get? i = some r →
      (get_agent st r.agent_id = none →
        (create_batch_tasks st reqs).1.get? i =
          some (.err ("Agent " ++ r.agent_id ++ " not found") r.agent_id)) ∧
      (get_agent st r.agent_id ≠ none →
        ∃ tid, (create_batch_tasks st reqs).1.get? i =
          some (.ok tid "pending" r.agent_id))) := by
  induction reqs generalizing st with
  | nil =>
    refine ⟨rfl, ?_⟩
    intro i r hr
    simp at hr
  | cons req rest ih =>
    cases hag : get_agent st req.agent_id with
    | none =>
      have hbatch : create_batch_tasks st (req :: rest) =
          (.err ("Agent " ++ req.agent_id ++ " not found") req.agent_id ::
             (create_batch_tasks st rest).1,
           (create_batch_tasks st rest).2) := by
        simp [create_batch_tasks, hag]
      obtain ⟨hl, hi⟩ := ih st
      constructor
      · rw [hbatch]
        simpa using hl
      · intro i r hr
        cases i with
        | zero =>
          simp at hr
          subst hr
          constructor
          · intro h0
            rw [hbatch]
            rfl
          · intro h0
            exact absurd hag h0
        | succ i =>
          simp only [List.get?_cons_succ] at hr
          obtain ⟨hc1, hc2⟩ := hi i r hr
          constructor
          · intro h0
            rw [hbatch]
            simpa using hc1 h0
          · intro h0
            obtain ⟨tid, htid⟩ := hc2 h0
            refine ⟨tid, ?_⟩
            rw [hbatch]
            simpa using htid
    | some a =>
      have hbatch : create_batch_tasks st (req :: rest) =
          (.ok (db_create_task st req.agent_id req.endpoint
              req.parameters).1 "pending" req.agent_id ::
             (create_batch_tasks (db_create_task st req.agent_id req.endpoint
               req.parameters).2 rest).1,
           (create_batch_tasks (db_create_task st req.agent_id req.endpoint
               req.parameters).2 rest).2) := by
        simp [create_batch_tasks, hag]
      obtain ⟨hl, hi⟩ :=
        ih (db_create_task st req.agent_id req.endpoint req.parameters).2
      constructor
      · rw [hbatch]
        simpa using hl
      · intro i r hr
        cases i with
        | zero =>
          simp at hr
          subst hr
          constructor
          · intro h0
            rw [h0] at hag
            exact Option.noConfusion hag
          · intro h0
            exact ⟨(db_create_task st req.agent_id req.endpoint
              req.parameters).1, by rw [hbatch]; rfl⟩
        | succ i =>
          simp only [List.get?_cons_succ] at hr
          obtain ⟨hc1, hc2⟩ := hi i r hr
          constructor
          · intro h0
            rw [hbatch]
            simpa using hc1 h0
          · intro h0
            obtain ⟨tid, htid⟩ := hc2 h0
            refine ⟨tid, ?_⟩
            rw [hbatch]
            simpa using htid

/-- A store holding one registered agent, "agent-a". -/
def demoState : ServerState :=
  { agents := [("agent-a", { id := "agent-a", metadata := .obj [] })]
    tasks := []
    nextId := 0 }

/-- A task request targeting the registered agent "agent-a". -/
def reqA : TaskRequest := { agent_id := "agent-a" }

/-- Witness for C6: batch of three requests whose middle item targets the
nonexistent agent "missing-1" — three entries come back in order, the middle
one an inline error, its siblings task ids. -/
theorem create_batch_tasks_per_item_witness :
    (create_batch_tasks demoState [reqA, missingReq, reqA]).1.length = 3 ∧
    (create_batch_tasks demoState [reqA, missingReq, reqA]).1.get? 1 =
      some (.err ("Agent " ++ missingReq.agent_id ++ " not found")
        missingReq.agent_id) ∧
    (∃ tid, (create_batch_tasks demoState [reqA, missingReq, reqA]).1.get? 0 =
      some (.ok tid "pending" reqA.agent_id)) ∧
    (∃ tid, (create_batch_tasks demoState [reqA, missingReq, reqA]).1.get? 2 =
      some (.ok tid "pending" reqA.agent_id)) :=
  ⟨(create_batch_tasks_per_item demoState [reqA, missingReq, reqA]).1,
   ((create_batch_tasks_per_item demoState [reqA, missingReq, reqA]).2
      1 missingReq rfl).1 rfl,
   ((create_batch_tasks_per_item demoState [reqA, missingReq, reqA]).2
      0 reqA rfl).2 (fun h => Option.noConfusion h),
   ((create_batch_tasks_per_item demoState [reqA, missingReq, reqA]).2
      2 reqA rfl).2 (fun h => Option.noConfusion h)⟩
